import Mathlib

/-!
Shallow embedding of the instance status-detection and lifecycle-probing
engine of `src/src-tauri/src/commands/instance.rs`.

I/O effects (TCP connects, process table queries, HTTP requests, file
reads/writes, clocks) are modelled as explicit oracle parameters; the pure
decision logic of each Rust function is translated directly.  `u16` ports and
`u32` pids are modelled as `Nat` (the counting logic never reaches the wrap
boundary for representable inputs), timestamps are opaque `String`s, durations
opaque `Nat`s.
-/

/-- `AemInstanceType` enum from instance.rs. -/
inductive AemInstanceType where
  | Author
  | Publish
  | Dispatcher
deriving Repr, DecidableEq

/-- `AemInstanceStatus` enum from instance.rs (seven states). -/
inductive AemInstanceStatus where
  | Running
  | Stopped
  | Starting
  | Stopping
  | Error
  | Unknown
  | PortConflict
deriving Repr, DecidableEq

/-- `AemInstance` record from instance.rs. -/
structure AemInstance where
  id : String
  name : String
  instance_type : AemInstanceType
  host : String
  port : Nat
  path : String
  java_opts : Option String
  run_modes : List String
  status : AemInstanceStatus
  profile_id : Option String
  created_at : String
  updated_at : String
deriving Repr, DecidableEq

/-- `InstanceStatusResult` record from instance.rs. -/
structure InstanceStatusResult where
  instance_id : String
  status : AemInstanceStatus
  checked_at : String
  duration_ms : Nat
  process_id : Option Nat
  process_name : Option String
  error : Option String
deriving Repr, DecidableEq

/-- `BundleStatus` record from instance.rs. -/
structure BundleStatus where
  total : Nat
  active : Nat
  resolved : Nat
  installed : Nat
deriving Repr, DecidableEq

/-- `MemoryStatus` record from instance.rs (`heap_percentage: f32` modelled
as a rational; no claim inspects it). -/
structure MemoryStatus where
  heap_used : Nat
  heap_max : Nat
  heap_percentage : Rat
deriving Repr, DecidableEq

/-- `AemVersionInfo` record from instance.rs. -/
structure AemVersionInfo where
  product_name : String
  product_version : String
  oak_version : Option String
  java_version : Option String
deriving Repr, DecidableEq

/-- `HealthCheckResult` record from instance.rs. -/
structure HealthCheckResult where
  instance_id : String
  timestamp : String
  status : AemInstanceStatus
  response_time : Option Nat
  bundle_status : Option BundleStatus
  memory_status : Option MemoryStatus
  aem_version : Option String
  oak_version : Option String
deriving Repr, DecidableEq

/-! ### String helpers (for `is_java_process`) -/

/-- Does the first character list occur at the head of the second?
(Models Rust `str::starts_with` on the char sequence.) -/
def leadsWith : List Char → List Char → Bool
  | [], _ => true
  | _ :: _, [] => false
  | a :: as, b :: bs => a == b && leadsWith as bs

/-- Does `sub` occur as a contiguous subsequence of `s`?
(Models Rust `str::contains`.) -/
def hasSub (sub : List Char) : List Char → Bool
  | [] => leadsWith sub []
  | s@(_ :: rest) => leadsWith sub s || hasSub sub rest

/-- Does `s` end with `tail`? (Models Rust `str::ends_with`.) -/
def hasTail (tail s : List Char) : Bool :=
  leadsWith tail.reverse s.reverse

/-- Character-wise lowercasing (models Rust `str::to_lowercase`;
the probed names are ASCII process names). -/
def lowerChars (cs : List Char) : List Char :=
  cs.map Char.toLower

/-- `is_java_process` from instance.rs: case-insensitive heuristic for
"this process name denotes a Java runtime". -/
def is_java_process (process_name : String) : Bool :=
  let name_lower := lowerChars process_name.data
  hasSub "java".data name_lower
    || hasSub "jdk".data name_lower
    || hasSub "jre".data name_lower
    || hasTail "/java".data name_lower
    || name_lower == "java".data

/-! ### Layer 1: port probe -/

/-- `check_port_open` from instance.rs.  `resolve` is the outcome of
`ToSocketAddrs::to_socket_addrs` on `"host:port"` (`none` = resolution
error), `connect` the outcome of `TcpStream::connect_timeout` on one
resolved address (socket addresses are modelled as opaque strings).  The
Rust loop returns true on the first successful connect, i.e. `List.any`. -/
def check_port_open (resolve : String → Option (List String))
    (connect : String → Bool) (host : String) (port : Nat) : Bool :=
  match resolve (host ++ ":" ++ toString port) with
  | some addrs => addrs.any connect
  | none => false

/-! ### Layer 3: HTTP readiness probe -/

/-- `check_aem_http_ready` from instance.rs.  `clientOk` is whether
`reqwest::Client::builder().build()` succeeded; `resp` is the transport
outcome of the GET on the login page (`none` = send error or timeout,
`some s` = a response with HTTP status `s`). -/
def check_aem_http_ready (clientOk : Bool) (resp : Option Nat) : Bool :=
  if clientOk then
    match resp with
    | some status => status == 200 || status == 302 || status == 401
    | none => false
  else false

example : is_java_process "nginx" = false := by decide
example : is_java_process "Java" = true := by decide
example : is_java_process "/usr/bin/java" = true := by decide
example : check_aem_http_ready true (some 302) = true := by decide
example : check_aem_http_ready true (some 503) = false := by decide
example : check_aem_http_ready false (some 200) = false := by decide

/-! ### Instance store (`instances.json`) -/

/-- State of the `instances.json` file, as observed by one
`load_instances` / `save_instances` call. -/
inductive InstFile where
  | missing
  | readError (e : String)
  | parseError (e : String)
  | contents (l : List AemInstance)
deriving Repr, DecidableEq

/-- `load_instances` from instance.rs: a missing file is an empty list,
read and parse failures are wrapped error strings. -/
def load_instances : InstFile → Except String (List AemInstance)
  | .missing => .ok []
  | .readError e => .error ("Failed to read instances: " ++ e)
  | .parseError e => .error ("Failed to parse instances: " ++ e)
  | .contents l => .ok l

/-- `save_instances` from instance.rs.  `saveOutcome` is the combined
outcome of directory creation, serialization and the file write (`.error e`
= the formatted failure message); on success the file holds the saved
list. -/
def save_instances (saveOutcome : Except String Unit)
    (l : List AemInstance) : Except String InstFile :=
  match saveOutcome with
  | .ok _ => .ok (InstFile.contents l)
  | .error e => .error e

/-- In-place mutation through `iter_mut().find(|i| i.id == id)`:
apply `f` to the first instance whose id matches, keep the rest. -/
def updateFirst (l : List AemInstance) (id : String)
    (f : AemInstance → AemInstance) : List AemInstance :=
  match l with
  | [] => []
  | i :: rest => if i.id == id then f i :: rest else i :: updateFirst rest id f

/-! ### Credential store (`.credentials` file) -/

/-- State of the `.credentials` file: missing, unreadable/unparsable, or a
parsed map of instance id to (username, password), modelled as an
association list. -/
inductive CredFile where
  | missing
  | failed (e : String)
  | parsed (m : List (String × String × String))
deriving Repr, DecidableEq

/-- `load_stored_credentials` from instance.rs: `Ok None` when the file does
not exist, `Err` on read/parse failure, otherwise the map lookup. -/
def load_stored_credentials (f : CredFile) (instance_id : String) :
    Except String (Option (String × String)) :=
  match f with
  | .missing => .ok none
  | .failed e => .error e
  | .parsed m => .ok (((m.find? (fun kv => kv.1 == instance_id)).map (fun kv => kv.2)))

/-- `get_instance_credentials` from instance.rs.  The username is always the
declared default (or "admin"); only the *password* is taken from the stored
credentials when the lookup succeeds. -/
def get_instance_credentials (f : CredFile) (instance_id : String)
    (default_username : Option String) : Except String (String × String) :=
  let username := default_username.getD "admin"
  match load_stored_credentials f instance_id with
  | .ok (some (_, stored_password)) => .ok (username, stored_password)
  | _ => .ok (username, "admin")

/-! ### Bundle response parsing -/

/-- Outcome of decoding the bundles JSON body.  `data entries` is the
`"data"` array with, for each element, the result of
`bundle.get("state")` followed by `as_str()`. -/
inductive BundlesJson where
  | decodeError
  | noDataArray
  | data (entries : List (Option String))
deriving Repr, DecidableEq

/-- The counting loop of `parse_bundle_response`: any entry without a state
string aborts the whole parse (the `?` operator inside the `for` loop);
otherwise tally "Active" / "Resolved" / "Installed". -/
def countBundleStates : List (Option String) → Option (Nat × Nat × Nat)
  | [] => some (0, 0, 0)
  | st :: rest =>
    match st with
    | none => none
    | some s =>
      match countBundleStates rest with
      | none => none
      | some (a, r, i) =>
        if s == "Active" then some (a + 1, r, i)
        else if s == "Resolved" then some (a, r + 1, i)
        else if s == "Installed" then some (a, r, i + 1)
        else some (a, r, i)

/-- `parse_bundle_response` from instance.rs: `total` is the length of the
`"data"` array, the three counters come from the state strings. -/
def parse_bundle_response (j : BundlesJson) : Option BundleStatus :=
  match j with
  | .decodeError => none
  | .noDataArray => none
  | .data entries =>
    (countBundleStates entries).map
      (fun c => { total := entries.length, active := c.1,
                  resolved := c.2.1, installed := c.2.2 })

example :
    parse_bundle_response (.data [some "Active", some "Active", some "Resolved", some "Fragment"])
      = some { total := 4, active := 2, resolved := 1, installed := 0 } := by decide
example : parse_bundle_response (.data [some "Active", none]) = none := by decide

/-! ### Status detection (`detect_instance_status`, `detect_all_instances_status`) -/

/-- Probe oracles for one detection pass: address resolution and TCP connect
(layer 1), listening-process lookup by port (layer 2,
`get_process_info_by_port`; `none` = inconclusive), HTTP client build flag
and login-page response (layer 3). -/
structure ProbeEnv where
  resolve : String → Option (List String)
  connect : String → Bool
  processInfo : Nat → Option (Nat × String)
  httpClientOk : Bool
  httpResp : Option Nat
deriving Inhabited

/-- The layer-3 tail of `detect_instance_status`: build the result from the
HTTP readiness outcome, carrying over whatever process info layer 2 found. -/
def detect_http_result (env : ProbeEnv) (now : String) (d3 : Nat) (id : String)
    (process_info : Option (Nat × String)) : InstanceStatusResult :=
  let http_ready := check_aem_http_ready env.httpClientOk env.httpResp
  { instance_id := id
    status := if http_ready then .Running else .Starting
    checked_at := now
    duration_ms := d3
    process_id := process_info.map (fun p => p.1)
    process_name := process_info.map (fun p => p.2)
    error := none }

/-- `detect_instance_status` from instance.rs.  `now` stands for the
`chrono::Utc::now().to_rfc3339()` timestamps, `d1`/`d2`/`d3` for the
elapsed-ms reading at the three return points.  The instances file is passed
through unchanged (the function performs no save), which the returned pair
makes explicit. -/
def detect_instance_status (env : ProbeEnv) (file : InstFile) (now : String)
    (d1 d2 d3 : Nat) (id : String) :
    Except String (InstFile × InstanceStatusResult) :=
  match load_instances file with
  | .error e => .error e
  | .ok instances =>
    match instances.find? (fun i => i.id == id) with
    | none => .error ("Instance " ++ id ++ " not found")
    | some inst =>
      let port_open := check_port_open env.resolve env.connect inst.host inst.port
      if !port_open then
        .ok (file, { instance_id := id, status := .Stopped, checked_at := now,
                     duration_ms := d1, process_id := none, process_name := none,
                     error := none })
      else
        let process_info := env.processInfo inst.port
        match process_info with
        | some (pid, name) =>
          if !(is_java_process name) then
            .ok (file, { instance_id := id, status := .PortConflict, checked_at := now,
                         duration_ms := d2, process_id := some pid,
                         process_name := some name,
                         error := some ("Port " ++ toString inst.port
                           ++ " is occupied by non-Java process: " ++ name) })
          else
            .ok (file, detect_http_result env now d3 id process_info)
        | none => .ok (file, detect_http_result env now d3 id process_info)

/-- The sequential loop of `detect_all_instances_status`: the `k`-th probe
re-reads the instances file, whose state at that moment is `files k`
(`detect_instance_status` loads the file itself); a probe error is wrapped
into an `Unknown` result instead of aborting the batch. -/
def detect_all_go (env : ProbeEnv) (files : Nat → InstFile) (now : String)
    (d1 d2 d3 : Nat) : Nat → List AemInstance → List InstanceStatusResult
  | _, [] => []
  | k, inst :: rest =>
    (match detect_instance_status env (files k) now d1 d2 d3 inst.id with
     | .ok p => p.2
     | .error e =>
       { instance_id := inst.id, status := .Unknown, checked_at := now,
         duration_ms := 0, process_id := none, process_name := none,
         error := some e }) :: detect_all_go env files now d1 d2 d3 (k + 1) rest

/-- `detect_all_instances_status` from instance.rs: load the instance list,
then run one detection per instance in order. -/
def detect_all_instances_status (env : ProbeEnv) (file0 : InstFile)
    (files : Nat → InstFile) (now : String) (d1 d2 d3 : Nat) :
    Except String (List InstanceStatusResult) :=
  match load_instances file0 with
  | .error e => .error e
  | .ok instances => .ok (detect_all_go env files now d1 d2 d3 0 instances)

/-! ### Lifecycle: `stop_instance` -/

/-- Oracles for one `stop_instance` call: credential file state, HTTP client
build outcome, transport outcome of the shutdown POST (`.ok` = a response
arrived, HTTP error statuses included; `.error` = transport failure),
`platform.get_process_by_port`, `platform.kill_process`, and the
`save_instances` outcome. -/
structure StopEnv where
  credFile : CredFile
  clientBuild : Except String Unit
  httpPost : Except String Unit
  processByPort : Nat → Option Nat
  killOutcome : Except String Unit
  saveOutcome : Except String Unit

/-- `stop_instance` from instance.rs: graceful HTTP shutdown first (mark
`Stopping` and save on any transport-level success), then OS kill fallback
(mark `Stopped` and save), else the hard "no process found" error. -/
def stop_instance (env : StopEnv) (file : InstFile) (id : String) :
    Except String (InstFile × Bool) :=
  match load_instances file with
  | .error e => .error e
  | .ok instances =>
    match instances.find? (fun i => i.id == id) with
    | none => .error ("Instance " ++ id ++ " not found")
    | some inst =>
      match get_instance_credentials env.credFile inst.id none with
      | .error e => .error e
      | .ok _ =>
        match env.clientBuild with
        | .error e => .error e
        | .ok _ =>
          match env.httpPost with
          | .ok _ =>
            match save_instances env.saveOutcome
                (updateFirst instances id (fun i => { i with status := .Stopping })) with
            | .error e => .error e
            | .ok f2 => .ok (f2, true)
          | .error _ =>
            match env.processByPort inst.port with
            | some _pid =>
              match env.killOutcome with
              | .error e => .error e
              | .ok _ =>
                match save_instances env.saveOutcome
                    (updateFirst instances id (fun i => { i with status := .Stopped })) with
                | .error e => .error e
                | .ok f2 => .ok (f2, true)
            | none => .error "Could not stop instance: no process found"

/-! ### Health check (`check_instance_health`) -/

/-- Oracles for one `check_instance_health` call: credential file, HTTP
client build, transport outcome of the bundles GET (`none` = send error,
`some s` = response with status `s`), the decoded bundles JSON body, the
outcomes of `fetch_memory_status` and `fetch_version_info`, and the
`save_instances` outcome. -/
structure HealthEnv where
  credFile : CredFile
  clientBuild : Except String Unit
  bundlesResp : Option Nat
  bundlesJson : BundlesJson
  memoryResult : Option MemoryStatus
  versionResult : Option AemVersionInfo
  saveOutcome : Except String Unit

/-- The status/bundles/memory triple computed by the `match bundles_response`
in `check_instance_health`: 2xx ⇒ Running with parsed bundles and memory,
401 ⇒ Running with nothing, anything else (other statuses or transport
failure) ⇒ Stopped with nothing. -/
def health_triple (env : HealthEnv) :
    AemInstanceStatus × Option BundleStatus × Option MemoryStatus :=
  match env.bundlesResp with
  | some s =>
    if 200 ≤ s ∧ s ≤ 299 then
      (.Running, parse_bundle_response env.bundlesJson, env.memoryResult)
    else if s == 401 then (.Running, none, none)
    else (.Stopped, none, none)
  | none => (.Stopped, none, none)

/-- `check_instance_health` from instance.rs.  `now` models the timestamp
written into the instance record, `now2` the result's timestamp,
`response_time` the elapsed-ms reading.  The updated instance list is saved
back unconditionally; the returned file reflects the write. -/
def check_instance_health (env : HealthEnv) (file : InstFile)
    (now now2 : String) (response_time : Nat) (id : String) :
    Except String (InstFile × HealthCheckResult) :=
  match load_instances file with
  | .error e => .error e
  | .ok instances =>
    match instances.find? (fun i => i.id == id) with
    | none => .error ("Instance " ++ id ++ " not found")
    | some inst =>
      match get_instance_credentials env.credFile inst.id none with
      | .error e => .error e
      | .ok _ =>
        match env.clientBuild with
        | .error e => .error e
        | .ok _ =>
          let t := health_triple env
          let status := t.1
          let version_info :=
            if status == AemInstanceStatus.Running then env.versionResult else none
          match save_instances env.saveOutcome
              (updateFirst instances id
                (fun i => { i with status := status, updated_at := now })) with
          | .error e => .error e
          | .ok f2 =>
            .ok (f2, { instance_id := id, timestamp := now2, status := status,
                       response_time := some response_time,
                       bundle_status := t.2.1, memory_status := t.2.2,
                       aem_version := version_info.map (fun v => v.product_version),
                       oak_version := version_info.bind (fun v => v.oak_version) })

/-! ### Sample data for concrete evaluations -/

/-- A concrete author instance on localhost:4502. -/
def sampleInstance : AemInstance :=
  { id := "i1", name := "author", instance_type := .Author, host := "localhost",
    port := 4502, path := "/opt/aem", java_opts := none, run_modes := [],
    status := .Stopped, profile_id := none, created_at := "t0", updated_at := "t0" }

/-! ### Helper lemmas -/

/-- `get_instance_credentials` always succeeds, with the declared (or
default) username and either the stored or the default password. -/
theorem cred_resolve_shape (f : CredFile) (id : String) (du : Option String) :
    ∃ pw, get_instance_credentials f id du = .ok (du.getD "admin", pw) := by
  unfold get_instance_credentials
  split <;> exact ⟨_, rfl⟩

/-- The HTTP readiness verdict is true exactly on a 200/302/401 response
obtained through a successfully built client. -/
theorem check_aem_http_ready_iff (clientOk : Bool) (resp : Option Nat) :
    check_aem_http_ready clientOk resp = true ↔
      clientOk = true ∧ (resp = some 200 ∨ resp = some 302 ∨ resp = some 401) := by
  cases clientOk <;> cases resp <;> simp [check_aem_http_ready, or_assoc]

/-! ### Claim theorems -/

/-- C1: for every instance whose TCP port probe reports the port closed,
`detect_instance_status` returns `Stopped` with `process_id = None`,
`process_name = None` and `error = None`; the process-identification and
HTTP-readiness oracles (`pinfo`, `hok`, `hresp`) are universally quantified
and absent from the fixed result, so neither layer is consulted. -/
theorem C1_port_closed_detects_stopped
    (resolve : String → Option (List String)) (connect : String → Bool)
    (pinfo : Nat → Option (Nat × String)) (hok : Bool) (hresp : Option Nat)
    (file : InstFile) (now : String) (d1 d2 d3 : Nat) (id : String)
    (instances : List AemInstance) (inst : AemInstance)
    (hload : load_instances file = .ok instances)
    (hfind : instances.find? (fun i => i.id == id) = some inst)
    (hport : check_port_open resolve connect inst.host inst.port = false) :
    detect_instance_status ⟨resolve, connect, pinfo, hok, hresp⟩ file now d1 d2 d3 id
      = .ok (file, { instance_id := id, status := .Stopped, checked_at := now,
                     duration_ms := d1, process_id := none, process_name := none,
                     error := none }) := by
  simp [detect_instance_status, hload, hfind, hport]

/-- Witness for C1 at a concrete stopped instance (resolution fails, so the
port probe reports closed; the process and HTTP oracles return live data
that the result provably ignores). -/
theorem C1_witness :
    detect_instance_status
        ⟨fun _ => none, fun _ => false, fun _ => some (1, "nginx"), true, some 200⟩
        (InstFile.contents [sampleInstance]) "T" 7 8 9 "i1"
      = .ok (InstFile.contents [sampleInstance],
             { instance_id := "i1", status := .Stopped, checked_at := "T",
               duration_ms := 7, process_id := none, process_name := none,
               error := none }) :=
  C1_port_closed_detects_stopped (fun _ => none) (fun _ => false)
    (fun _ => some (1, "nginx")) true (some 200)
    (InstFile.contents [sampleInstance]) "T" 7 8 9 "i1"
    [sampleInstance] sampleInstance rfl (by decide) rfl

/-- C2: port open and the listening process is not java-like ⇒
`PortConflict` with pid and name populated and the diagnostic message
"Port {port} is occupied by non-Java process: {name}", which is non-empty;
the HTTP oracles (`hok`, `hresp`) are universally quantified and absent from
the result, so the readiness probe is not attempted. -/
theorem C2_non_java_port_conflict
    (resolve : String → Option (List String)) (connect : String → Bool)
    (pinfo : Nat → Option (Nat × String)) (hok : Bool) (hresp : Option Nat)
    (file : InstFile) (now : String) (d1 d2 d3 : Nat) (id : String)
    (instances : List AemInstance) (inst : AemInstance) (pid : Nat) (name : String)
    (hload : load_instances file = .ok instances)
    (hfind : instances.find? (fun i => i.id == id) = some inst)
    (hport : check_port_open resolve connect inst.host inst.port = true)
    (hproc : pinfo inst.port = some (pid, name))
    (hjava : is_java_process name = false) :
    detect_instance_status ⟨resolve, connect, pinfo, hok, hresp⟩ file now d1 d2 d3 id
      = .ok (file, { instance_id := id, status := .PortConflict, checked_at := now,
                     duration_ms := d2, process_id := some pid,
                     process_name := some name,
                     error := some ("Port " ++ toString inst.port
                       ++ " is occupied by non-Java process: " ++ name) })
    ∧ ("Port " ++ toString inst.port ++ " is occupied by non-Java process: " ++ name)
        ≠ "" := by
  constructor
  · simp [detect_instance_status, hload, hfind, hport, hproc, hjava]
  · intro hemp
    have h0 : ("Port " ++ toString inst.port
        ++ " is occupied by non-Java process: " ++ name).length = 0 := by
      rw [hemp]; rfl
    rw [String.length_append, String.length_append, String.length_append] at h0
    have h5 : ("Port ").length = 5 := rfl
    omega

/-- Witness for C2: port 4502 held by `nginx`/pid 555. -/
theorem C2_witness :
    detect_instance_status
        ⟨fun _ => some ["a0"], fun _ => true, fun _ => some (555, "nginx"), true, some 200⟩
        (InstFile.contents [sampleInstance]) "T" 7 8 9 "i1"
      = .ok (InstFile.contents [sampleInstance],
             { instance_id := "i1", status := .PortConflict, checked_at := "T",
               duration_ms := 8, process_id := some 555, process_name := some "nginx",
               error := some "Port 4502 is occupied by non-Java process: nginx" })
    ∧ ("Port " ++ toString sampleInstance.port
        ++ " is occupied by non-Java process: " ++ "nginx") ≠ "" := by
  have h := C2_non_java_port_conflict (fun _ => some ["a0"]) (fun _ => true)
    (fun _ => some (555, "nginx")) true (some 200)
    (InstFile.contents [sampleInstance]) "T" 7 8 9 "i1"
    [sampleInstance] sampleInstance 555 "nginx" rfl (by decide) rfl rfl (by decide)
  have hs : "Port " ++ toString sampleInstance.port
      ++ " is occupied by non-Java process: " ++ "nginx"
      = "Port 4502 is occupied by non-Java process: nginx" := by decide
  exact ⟨hs ▸ h.1, h.2⟩

/-- C3: port open and process lookup inconclusive or java-like ⇒ the result
comes from the HTTP readiness layer: `Running` exactly when the login-page
GET yields 200, 302 or 401 through a successfully built client, `Starting`
for every other outcome, with no error attached. -/
theorem C3_http_layer_running_or_starting
    (resolve : String → Option (List String)) (connect : String → Bool)
    (pinfo : Nat → Option (Nat × String)) (hok : Bool) (hresp : Option Nat)
    (file : InstFile) (now : String) (d1 d2 d3 : Nat) (id : String)
    (instances : List AemInstance) (inst : AemInstance)
    (hload : load_instances file = .ok instances)
    (hfind : instances.find? (fun i => i.id == id) = some inst)
    (hport : check_port_open resolve connect inst.host inst.port = true)
    (hproc : pinfo inst.port = none
      ∨ ∃ pid name, pinfo inst.port = some (pid, name) ∧ is_java_process name = true) :
    ∃ r, detect_instance_status ⟨resolve, connect, pinfo, hok, hresp⟩ file now d1 d2 d3 id
        = .ok (file, r)
      ∧ (r.status = .Running ↔
          (hok = true ∧ (hresp = some 200 ∨ hresp = some 302 ∨ hresp = some 401)))
      ∧ (r.status = .Running ∨ r.status = .Starting)
      ∧ r.error = none := by
  have hready := check_aem_http_ready_iff hok hresp
  refine ⟨detect_http_result ⟨resolve, connect, pinfo, hok, hresp⟩ now d3 id
    (pinfo inst.port), ?_, ?_, ?_, ?_⟩
  · rcases hproc with hnone | ⟨pid, name, hsome, hjava⟩
    · simp [detect_instance_status, hload, hfind, hport, hnone]
    · simp [detect_instance_status, hload, hfind, hport, hsome, hjava]
  · rcases hr : check_aem_http_ready hok hresp with _ | _
    · rw [hr] at hready
      have hnot : ¬(hok = true
          ∧ (hresp = some 200 ∨ hresp = some 302 ∨ hresp = some 401)) := by
        intro hx
        have hcontra := hready.mpr hx
        simp at hcontra
      simp [detect_http_result, hr, hnot]
    · rw [hr] at hready
      simp [detect_http_result, hr]
      exact hready.mp rfl
  · rcases hr : check_aem_http_ready hok hresp with _ | _ <;>
      simp [detect_http_result, hr]
  · simp [detect_http_result]

/-- Witness for C3: port 4502 held by `java`/pid 900, login page answers
302 ⇒ the detected status is `Running`. -/
theorem C3_witness :
    ∃ r, detect_instance_status
        ⟨fun _ => some ["a0"], fun _ => true, fun _ => some (900, "java"), true, some 302⟩
        (InstFile.contents [sampleInstance]) "T" 7 8 9 "i1"
        = .ok (InstFile.contents [sampleInstance], r)
      ∧ (r.status = .Running ↔
          (true = true ∧ ((some 302 : Option Nat) = some 200 ∨ (some 302 : Option Nat) = some 302
            ∨ (some 302 : Option Nat) = some 401)))
      ∧ (r.status = .Running ∨ r.status = .Starting)
      ∧ r.error = none :=
  C3_http_layer_running_or_starting (fun _ => some ["a0"]) (fun _ => true)
    (fun _ => some (900, "java")) true (some 302)
    (InstFile.contents [sampleInstance]) "T" 7 8 9 "i1"
    [sampleInstance] sampleInstance rfl (by decide) rfl
    (Or.inr ⟨900, "java", rfl, by decide⟩)

/-- Every successful detection result carries the requested instance id. -/
theorem detect_ok_instance_id (env : ProbeEnv) (file : InstFile) (now : String)
    (d1 d2 d3 : Nat) (id : String) (p : InstFile × InstanceStatusResult)
    (h : detect_instance_status env file now d1 d2 d3 id = .ok p) :
    p.2.instance_id = id := by
  simp only [detect_instance_status] at h
  split at h
  · exact absurd h (by simp)
  · split at h
    · exact absurd h (by simp)
    · split at h
      · simp only [Except.ok.injEq] at h
        rw [← h]
      · split at h
        · split at h
          · simp only [Except.ok.injEq] at h
            rw [← h]
          · simp only [Except.ok.injEq] at h
            rw [← h]
            simp [detect_http_result]
        · simp only [Except.ok.injEq] at h
          rw [← h]
          simp [detect_http_result]

/-- The batch loop produces one result per input instance. -/
theorem detect_all_go_length (env : ProbeEnv) (files : Nat → InstFile)
    (now : String) (d1 d2 d3 : Nat) :
    ∀ (l : List AemInstance) (k : Nat),
      (detect_all_go env files now d1 d2 d3 k l).length = l.length := by
  intro l
  induction l with
  | nil => intro k; rfl
  | cons a rest ih =>
    intro k
    simp only [detect_all_go, List.length_cons, ih]

/-- Elementwise description of the batch loop: the `i`-th output is
associated with the `i`-th input instance by id, and an erroring probe is
wrapped into an `Unknown` result. -/
theorem detect_all_go_elem (env : ProbeEnv) (files : Nat → InstFile)
    (now : String) (d1 d2 d3 : Nat) :
    ∀ (l : List AemInstance) (k i : Nat), i < l.length →
      ∃ inst r, l.get? i = some inst
        ∧ (detect_all_go env files now d1 d2 d3 k l).get? i = some r
        ∧ r.instance_id = inst.id
        ∧ ∀ e, detect_instance_status env (files (k + i)) now d1 d2 d3 inst.id
            = .error e →
            r = { instance_id := inst.id, status := .Unknown, checked_at := now,
                  duration_ms := 0, process_id := none, process_name := none,
                  error := some e } := by
  intro l
  induction l with
  | nil => intro k i hi; simp at hi
  | cons a rest ih =>
    intro k i hi
    cases i with
    | zero =>
      rcases hd : detect_instance_status env (files k) now d1 d2 d3 a.id with e | p
      · refine ⟨a, { instance_id := a.id, status := .Unknown, checked_at := now,
                     duration_ms := 0, process_id := none, process_name := none,
                     error := some e }, rfl, by simp [detect_all_go, hd], rfl, ?_⟩
        intro e2 he2
        simp only [Nat.add_zero] at he2
        rw [hd] at he2
        simp only [Except.error.injEq] at he2
        rw [he2]
      · refine ⟨a, p.2, rfl, by simp [detect_all_go, hd],
          detect_ok_instance_id env (files k) now d1 d2 d3 a.id p hd, ?_⟩
        intro e2 he2
        simp only [Nat.add_zero] at he2
        rw [hd] at he2
        simp at he2
    | succ j =>
      have hj : j < rest.length := by simpa using hi
      obtain ⟨inst, r, h1, h2, h3, h4⟩ := ih (k + 1) j hj
      refine ⟨inst, r, by simpa using h1, ?_, h3, ?_⟩
      · simpa [detect_all_go] using h2
      · intro e he
        apply h4
        have harith : k + 1 + j = k + (j + 1) := by omega
        rw [harith]
        exact he

/-- C4: over a successfully loaded list of N instances,
`detect_all_instances_status` returns exactly N results, the `i`-th result
associated with the `i`-th instance by id; an instance whose individual
probe errors still appears, as an `Unknown` result carrying the error
message, instead of being dropped or aborting the batch. -/
theorem C4_detect_all_exactly_n
    (env : ProbeEnv) (file0 : InstFile) (files : Nat → InstFile) (now : String)
    (d1 d2 d3 : Nat) (instances : List AemInstance)
    (hload : load_instances file0 = .ok instances) :
    ∃ rs, detect_all_instances_status env file0 files now d1 d2 d3 = .ok rs
      ∧ rs.length = instances.length
      ∧ ∀ i, i < instances.length →
          ∃ inst r, instances.get? i = some inst ∧ rs.get? i = some r
            ∧ r.instance_id = inst.id
            ∧ ∀ e, detect_instance_status env (files i) now d1 d2 d3 inst.id
                = .error e →
                r = { instance_id := inst.id, status := .Unknown, checked_at := now,
                      duration_ms := 0, process_id := none, process_name := none,
                      error := some e } := by
  refine ⟨detect_all_go env files now d1 d2 d3 0 instances, ?_, ?_, ?_⟩
  · simp [detect_all_instances_status, hload]
  · exact detect_all_go_length env files now d1 d2 d3 instances 0
  · intro i hi
    have h := detect_all_go_elem env files now d1 d2 d3 instances 0 i hi
    simpa using h

/-- Witness for C4: two stored instances; every re-read during the batch
fails to parse, so each per-instance probe errors and both instances surface
as `Unknown` results with the message attached — still exactly two results,
in input order. -/
theorem C4_witness :
    ∃ rs,
      detect_all_instances_status
          ⟨fun _ => none, fun _ => false, fun _ => none, true, some 200⟩
          (InstFile.contents [sampleInstance,
            { sampleInstance with id := "i2", port := 4503 }])
          (fun _ => InstFile.parseError "bad json") "T" 7 8 9 = .ok rs
      ∧ rs.length = ([sampleInstance,
            { sampleInstance with id := "i2", port := 4503 }] : List AemInstance).length
      ∧ ∀ i, i < ([sampleInstance,
            { sampleInstance with id := "i2", port := 4503 }] : List AemInstance).length →
          ∃ inst r,
            ([sampleInstance,
              { sampleInstance with id := "i2", port := 4503 }] : List AemInstance).get? i
                = some inst
            ∧ rs.get? i = some r
            ∧ r.instance_id = inst.id
            ∧ ∀ e, detect_instance_status
                ⟨fun _ => none, fun _ => false, fun _ => none, true, some 200⟩
                (InstFile.parseError "bad json") "T" 7 8 9 inst.id = .error e →
                r = { instance_id := inst.id, status := .Unknown, checked_at := "T",
                      duration_ms := 0, process_id := none, process_name := none,
                      error := some e } :=
  C4_detect_all_exactly_n
    ⟨fun _ => none, fun _ => false, fun _ => none, true, some 200⟩
    (InstFile.contents [sampleInstance, { sampleInstance with id := "i2", port := 4503 }])
    (fun _ => InstFile.parseError "bad json") "T" 7 8 9
    [sampleInstance, { sampleInstance with id := "i2", port := 4503 }] rfl

/-- C9: `detect_instance_status` never mutates the instance record store:
whenever it succeeds, the instances file it hands back is exactly the file
it was given — the function only reads and re-probes. -/
theorem C9_detect_never_mutates_store
    (env : ProbeEnv) (file : InstFile) (now : String) (d1 d2 d3 : Nat)
    (id : String) (f2 : InstFile) (r : InstanceStatusResult)
    (h : detect_instance_status env file now d1 d2 d3 id = .ok (f2, r)) :
    f2 = file := by
  simp only [detect_instance_status] at h
  split at h
  · exact absurd h (by simp)
  · split at h
    · exact absurd h (by simp)
    · split at h
      · simp only [Except.ok.injEq, Prod.mk.injEq] at h
        exact h.1.symm
      · split at h
        · split at h
          · simp only [Except.ok.injEq, Prod.mk.injEq] at h
            exact h.1.symm
          · simp only [Except.ok.injEq, Prod.mk.injEq] at h
            exact h.1.symm
        · simp only [Except.ok.injEq, Prod.mk.injEq] at h
          exact h.1.symm

/-- Witness for C9: a concrete successful detection whose returned file is
the input file. -/
theorem C9_witness :
    InstFile.contents [sampleInstance] = InstFile.contents [sampleInstance] :=
  C9_detect_never_mutates_store
    ⟨fun _ => none, fun _ => false, fun _ => none, true, some 200⟩
    (InstFile.contents [sampleInstance]) "T" 7 8 9 "i1"
    (InstFile.contents [sampleInstance])
    { instance_id := "i1", status := .Stopped, checked_at := "T", duration_ms := 7,
      process_id := none, process_name := none, error := none } rfl

/-- A successful `save_instances` leaves exactly the saved list in the
file. -/
theorem save_instances_ok (so : Except String Unit) (l : List AemInstance)
    (f : InstFile) (h : save_instances so l = .ok f) : f = .contents l := by
  unfold save_instances at h
  split at h
  · simp only [Except.ok.injEq] at h
    rw [← h]
  · exact absurd h (by simp)

/-- `updateFirst` commutes with the id lookup when the update preserves the
id: the looked-up record is the updated one. -/
theorem find_updateFirst (l : List AemInstance) (id : String)
    (f : AemInstance → AemInstance) (hf : ∀ i, (f i).id = i.id) :
    (updateFirst l id f).find? (fun i => i.id == id)
      = (l.find? (fun i => i.id == id)).map f := by
  induction l with
  | nil => rfl
  | cons a rest ih =>
    rcases h : a.id == id with _ | _
    · simp [updateFirst, h, List.find?_cons, ih]
    · simp [updateFirst, h, List.find?_cons, hf]

/-- The status computed by the health check is always `Running` or
`Stopped`. -/
theorem health_triple_status (env : HealthEnv) :
    (health_triple env).1 = .Running ∨ (health_triple env).1 = .Stopped := by
  unfold health_triple
  split
  · split
    · exact Or.inl rfl
    · split
      · exact Or.inl rfl
      · exact Or.inr rfl
  · exact Or.inr rfl

/-- C5: a 401 on the bundles endpoint yields a health-check result with
status `Running` (not `Stopped`) and both `bundle_status` and
`memory_status` absent. -/
theorem C5_health_401_running
    (env : HealthEnv) (file : InstFile) (now now2 : String) (rt : Nat)
    (id : String) (instances : List AemInstance) (inst : AemInstance)
    (hload : load_instances file = .ok instances)
    (hfind : instances.find? (fun i => i.id == id) = some inst)
    (hclient : env.clientBuild = .ok ())
    (hresp : env.bundlesResp = some 401)
    (hsave : env.saveOutcome = .ok ()) :
    ∃ f2 r, check_instance_health env file now now2 rt id = .ok (f2, r)
      ∧ r.status = .Running ∧ r.bundle_status = none ∧ r.memory_status = none := by
  obtain ⟨pw, hp⟩ := cred_resolve_shape env.credFile inst.id none
  have ht : health_triple env = (.Running, none, none) := by
    simp [health_triple, hresp]
  refine ⟨InstFile.contents (updateFirst instances id
      (fun i => { i with status := .Running, updated_at := now })),
    { instance_id := id, timestamp := now2, status := .Running,
      response_time := some rt, bundle_status := none, memory_status := none,
      aem_version := env.versionResult.map (fun v => v.product_version),
      oak_version := env.versionResult.bind (fun v => v.oak_version) },
    ?_, rfl, rfl, rfl⟩
  simp [check_instance_health, hload, hfind, hp, hclient, ht, save_instances, hsave]

/-- Witness for C5: concrete instance, 401 bundles response (with a live
memory oracle that the result provably drops). -/
theorem C5_witness :
    ∃ f2 r,
      check_instance_health
          { credFile := .missing, clientBuild := .ok (), bundlesResp := some 401,
            bundlesJson := .decodeError, memoryResult := some ⟨512, 1024, 50⟩,
            versionResult := none, saveOutcome := .ok () }
          (InstFile.contents [sampleInstance]) "T1" "T2" 42 "i1" = .ok (f2, r)
      ∧ r.status = .Running ∧ r.bundle_status = none ∧ r.memory_status = none :=
  C5_health_401_running
    { credFile := .missing, clientBuild := .ok (), bundlesResp := some 401,
      bundlesJson := .decodeError, memoryResult := some ⟨512, 1024, 50⟩,
      versionResult := none, saveOutcome := .ok () }
    (InstFile.contents [sampleInstance]) "T1" "T2" 42 "i1"
    [sampleInstance] sampleInstance rfl (by decide) rfl rfl rfl

/-- C10: every successful `check_instance_health` call persists its verdict:
the file handed back holds the loaded list with the addressed instance's
cached status overwritten by the detected status (always `Running` or
`Stopped`) and its `updated_at` refreshed — for every value of the
bundle/memory/version oracles, i.e. even when all optional sub-fetches
failed. -/
theorem C10_health_persists_verdict
    (env : HealthEnv) (file : InstFile) (now now2 : String) (rt : Nat)
    (id : String) (f2 : InstFile) (r : HealthCheckResult)
    (h : check_instance_health env file now now2 rt id = .ok (f2, r)) :
    ∃ instances inst,
      load_instances file = .ok instances
      ∧ instances.find? (fun i => i.id == id) = some inst
      ∧ f2 = InstFile.contents (updateFirst instances id
            (fun i => { i with status := r.status, updated_at := now }))
      ∧ (updateFirst instances id
            (fun i => { i with status := r.status, updated_at := now })).find?
            (fun i => i.id == id)
          = some { inst with status := r.status, updated_at := now }
      ∧ (r.status = .Running ∨ r.status = .Stopped) := by
  simp only [check_instance_health] at h
  split at h
  · exact absurd h (by simp)
  · rename_i instances hl
    split at h
    · exact absurd h (by simp)
    · rename_i inst hf
      split at h
      · exact absurd h (by simp)
      · split at h
        · exact absurd h (by simp)
        · split at h
          · exact absurd h (by simp)
          · rename_i f2x hsave
            simp only [Except.ok.injEq, Prod.mk.injEq] at h
            obtain ⟨hf2, hr⟩ := h
            have hst : r.status = (health_triple env).1 := by
              rw [← hr]
            refine ⟨instances, inst, hl, hf, ?_, ?_, ?_⟩
            · rw [← hf2, hst]
              exact save_instances_ok env.saveOutcome _ f2x hsave
            · rw [find_updateFirst instances id
                (fun i => { i with status := r.status, updated_at := now })
                (fun i => rfl), hf]
              rfl
            · rw [hst]
              exact health_triple_status env

/-- Witness for C10: concrete call in which the bundles body fails to
decode, the memory fetch fails and the version fetch fails, yet the file is
written back with status `Running` and the fresh timestamp. -/
theorem C10_witness :
    ∃ instances inst,
      load_instances (InstFile.contents [sampleInstance]) = .ok instances
      ∧ instances.find? (fun i => i.id == "i1") = some inst
      ∧ InstFile.contents [{ sampleInstance with
            status := AemInstanceStatus.Running, updated_at := "T1" }]
          = InstFile.contents (updateFirst instances "i1"
              (fun i => { i with status := AemInstanceStatus.Running, updated_at := "T1" }))
      ∧ (updateFirst instances "i1"
            (fun i => { i with status := AemInstanceStatus.Running, updated_at := "T1" })).find?
            (fun i => i.id == "i1")
          = some { inst with status := AemInstanceStatus.Running, updated_at := "T1" }
      ∧ ((AemInstanceStatus.Running = AemInstanceStatus.Running)
          ∨ (AemInstanceStatus.Running = AemInstanceStatus.Stopped)) :=
  C10_health_persists_verdict
    { credFile := .missing, clientBuild := .ok (), bundlesResp := some 200,
      bundlesJson := .decodeError, memoryResult := none,
      versionResult := none, saveOutcome := .ok () }
    (InstFile.contents [sampleInstance]) "T1" "T2" 42 "i1"
    (InstFile.contents [{ sampleInstance with
      status := AemInstanceStatus.Running, updated_at := "T1" }])
    { instance_id := "i1", timestamp := "T2", status := .Running,
      response_time := some 42, bundle_status := none, memory_status := none,
      aem_version := none, oak_version := none } rfl

/-- C6: `stop_instance` tries the HTTP shutdown first; a transport-level
success marks the instance `Stopping` and reports success immediately, a
transport failure falls back to killing the process listening on the port
(marking `Stopped`), and if no such process exists it returns the hard
"no process found" error. -/
theorem C6_stop_http_then_kill_then_error
    (env : StopEnv) (file : InstFile) (id : String)
    (instances : List AemInstance) (inst : AemInstance)
    (hload : load_instances file = .ok instances)
    (hfind : instances.find? (fun i => i.id == id) = some inst)
    (hclient : env.clientBuild = .ok ()) :
    (env.httpPost = .ok () → env.saveOutcome = .ok () →
      stop_instance env file id
        = .ok (InstFile.contents (updateFirst instances id
            (fun i => { i with status := .Stopping })), true))
    ∧ (∀ e pid, env.httpPost = .error e → env.processByPort inst.port = some pid →
        env.killOutcome = .ok () → env.saveOutcome = .ok () →
        stop_instance env file id
          = .ok (InstFile.contents (updateFirst instances id
              (fun i => { i with status := .Stopped })), true))
    ∧ (∀ e, env.httpPost = .error e → env.processByPort inst.port = none →
        stop_instance env file id = .error "Could not stop instance: no process found") := by
  obtain ⟨pw, hp⟩ := cred_resolve_shape env.credFile inst.id none
  refine ⟨?_, ?_, ?_⟩
  · intro hpost hsave
    simp [stop_instance, hload, hfind, hp, hclient, hpost, save_instances, hsave]
  · intro e pid hpost hproc hkill hsave
    simp [stop_instance, hload, hfind, hp, hclient, hpost, hproc, hkill,
      save_instances, hsave]
  · intro e hpost hproc
    simp [stop_instance, hload, hfind, hp, hclient, hpost, hproc]

/-- Witness for C6: three concrete runs — HTTP shutdown accepted, HTTP down
with a process on the port, HTTP down with nothing on the port. -/
theorem C6_witness :
    stop_instance
        { credFile := .missing, clientBuild := .ok (), httpPost := .ok (),
          processByPort := fun _ => none, killOutcome := .ok (), saveOutcome := .ok () }
        (InstFile.contents [sampleInstance]) "i1"
      = .ok (InstFile.contents [{ sampleInstance with status := AemInstanceStatus.Stopping }], true)
    ∧ stop_instance
        { credFile := .missing, clientBuild := .ok (), httpPost := .error "refused",
          processByPort := fun _ => some 900, killOutcome := .ok (), saveOutcome := .ok () }
        (InstFile.contents [sampleInstance]) "i1"
      = .ok (InstFile.contents [{ sampleInstance with status := AemInstanceStatus.Stopped }], true)
    ∧ stop_instance
        { credFile := .missing, clientBuild := .ok (), httpPost := .error "refused",
          processByPort := fun _ => none, killOutcome := .ok (), saveOutcome := .ok () }
        (InstFile.contents [sampleInstance]) "i1"
      = .error "Could not stop instance: no process found" := by
  have h1 := C6_stop_http_then_kill_then_error
    { credFile := .missing, clientBuild := .ok (), httpPost := .ok (),
      processByPort := fun _ => none, killOutcome := .ok (), saveOutcome := .ok () }
    (InstFile.contents [sampleInstance]) "i1" [sampleInstance] sampleInstance
    rfl (by decide) rfl
  have h2 := C6_stop_http_then_kill_then_error
    { credFile := .missing, clientBuild := .ok (), httpPost := .error "refused",
      processByPort := fun _ => some 900, killOutcome := .ok (), saveOutcome := .ok () }
    (InstFile.contents [sampleInstance]) "i1" [sampleInstance] sampleInstance
    rfl (by decide) rfl
  have h3 := C6_stop_http_then_kill_then_error
    { credFile := .missing, clientBuild := .ok (), httpPost := .error "refused",
      processByPort := fun _ => none, killOutcome := .ok (), saveOutcome := .ok () }
    (InstFile.contents [sampleInstance]) "i1" [sampleInstance] sampleInstance
    rfl (by decide) rfl
  exact ⟨h1.1 rfl rfl, h2.2.1 "refused" 900 rfl rfl rfl rfl, h3.2.2 "refused" rfl rfl⟩

/-- C7 counterexample: stored credentials ("alice", "secret") for instance
"i1" are NOT returned as the pair — the stored username is discarded, so
the claim "returns the stored (username, password) pair" is false on the
code. -/
theorem C7_counterexample :
    get_instance_credentials (CredFile.parsed [("i1", "alice", "secret")]) "i1" none
      ≠ .ok ("alice", "secret") := by
  intro h
  have h2 : (Except.ok (("admin" : String), ("secret" : String))
      : Except String (String × String)) = .ok ("alice", "secret") := h
  simp only [Except.ok.injEq, Prod.mk.injEq] at h2
  exact absurd h2.1 (by decide)

/-- C7 (amended): credential resolution never fails; the username is always
the declared one (or "admin"), and only the password is taken from the
stored credentials when a stored entry for the instance id loads
successfully — otherwise the password falls back to "admin". -/
theorem C7_amended_resolution
    (f : CredFile) (id : String) (du : Option String) :
    (∃ p, get_instance_credentials f id du = .ok p)
    ∧ (∀ u pw, load_stored_credentials f id = .ok (some (u, pw)) →
        get_instance_credentials f id du = .ok (du.getD "admin", pw))
    ∧ ((load_stored_credentials f id = .ok none
        ∨ ∃ e, load_stored_credentials f id = .error e) →
        get_instance_credentials f id du = .ok (du.getD "admin", "admin")) := by
  refine ⟨?_, ?_, ?_⟩
  · obtain ⟨pw, hp⟩ := cred_resolve_shape f id du
    exact ⟨_, hp⟩
  · intro u pw hl
    simp [get_instance_credentials, hl]
  · intro hl
    rcases hl with hl | ⟨e, hl⟩ <;> simp [get_instance_credentials, hl]

/-- Witness for C7 (amended): a stored entry yields the stored password
under the default username; a missing file yields the admin/admin pair. -/
theorem C7_witness :
    get_instance_credentials (CredFile.parsed [("i1", "alice", "secret")]) "i1" none
      = .ok ((none : Option String).getD "admin", "secret")
    ∧ get_instance_credentials CredFile.missing "i1" none
      = .ok ((none : Option String).getD "admin", "admin") :=
  ⟨(C7_amended_resolution (CredFile.parsed [("i1", "alice", "secret")]) "i1" none).2.1
      "alice" "secret" rfl,
   (C7_amended_resolution CredFile.missing "i1" none).2.2 (Or.inl rfl)⟩

/-- The bundle-state tally never exceeds the number of entries. -/
theorem countBundleStates_le (l : List (Option String)) :
    ∀ a r i, countBundleStates l = some (a, r, i) → a + r + i ≤ l.length := by
  induction l with
  | nil =>
    intro a r i h
    simp only [countBundleStates, Option.some.injEq, Prod.mk.injEq] at h
    omega
  | cons st rest ih =>
    intro a r i h
    unfold countBundleStates at h
    cases st with
    | none => simp at h
    | some s =>
      rcases hr : countBundleStates rest with _ | ⟨a0, r0, i0⟩
      · simp only [hr] at h
        exact absurd h (by simp)
      · simp only [hr] at h
        have hle := ih a0 r0 i0 hr
        simp only [List.length_cons]
        split at h
        · simp only [Option.some.injEq, Prod.mk.injEq] at h
          omega
        · split at h
          · simp only [Option.some.injEq, Prod.mk.injEq] at h
            omega
          · split at h
            · simp only [Option.some.injEq, Prod.mk.injEq] at h
              omega
            · simp only [Option.some.injEq, Prod.mk.injEq] at h
              omega

/-- C8: whenever bundle parsing returns a `BundleStatus`, the counted
active + resolved + installed bundles never exceed the total entry count. -/
theorem C8_bundle_counts_le_total (j : BundlesJson) (bs : BundleStatus)
    (h : parse_bundle_response j = some bs) :
    bs.active + bs.resolved + bs.installed ≤ bs.total := by
  cases j with
  | decodeError => simp [parse_bundle_response] at h
  | noDataArray => simp [parse_bundle_response] at h
  | data entries =>
    simp only [parse_bundle_response] at h
    rcases hc : countBundleStates entries with _ | ⟨a, r, i⟩ <;> rw [hc] at h
    · simp at h
    · simp only [Option.map_some', Option.some.injEq] at h
      rw [← h]
      exact countBundleStates_le entries a r i hc

/-- Witness for C8 on a concrete four-entry bundle list. -/
theorem C8_witness :
    parse_bundle_response (.data [some "Active", some "Active", some "Resolved", some "Fragment"])
      = some { total := 4, active := 2, resolved := 1, installed := 0 }
    ∧ 2 + 1 + 0 ≤ 4 :=
  ⟨by decide,
   C8_bundle_counts_le_total
     (.data [some "Active", some "Active", some "Resolved", some "Fragment"])
     { total := 4, active := 2, resolved := 1, installed := 0 } (by decide)⟩
